import Mathlib

/-!
Verification development for the SignNow Node SDK client library.

The development shallowly embeds the request-construction logic of the
library's three source files: the OAuth2 endpoint methods
(`requestToken`, `verify`, `refreshToken`), the User endpoint methods
(`create`, `retrieve`, `verifyEmail`, `deactivateReusableSignatures`),
and the `bin/remove-document` command-line entry point.  JavaScript
objects used as payloads are embedded as ordered association lists of
string keys and string values; JavaScript strings are Lean strings;
`Buffer.byteLength` is the UTF-8 byte count.

The shared helper module (`buildRequestOptions`, `responseHandler`,
`errorHandler` in `lib/common`) is not part of the sources; where the
development needs it, it is modelled from the specification, and the
corresponding definitions say so in their doc comments.
-/

namespace SignNowSDK

/-- An embedded JavaScript object with string-valued own properties,
in property-insertion order. -/
abbrev Payload := List (String × String)

/-- Uppercase hexadecimal digit (code point arithmetic: digits start at
48, uppercase letters at 65), used by the percent encoder. -/
def hexDigit (n : Nat) : Char :=
  Char.ofNat (if n < 10 then 48 + n else 55 + n)

/-- Lowercase hexadecimal digit (lowercase letters start at 97), used
by the JSON string escaper. -/
def hexDigitLower (n : Nat) : Char :=
  Char.ofNat (if n < 10 then 48 + n else 87 + n)

/-- UTF-8 encoding of a single character, as a list of byte values. -/
def utf8Bytes (c : Char) : List Nat :=
  let n := c.toNat
  if n < 128 then [n]
  else if n < 2048 then [192 + n / 64, 128 + n % 64]
  else if n < 65536 then [224 + n / 4096, 128 + (n / 64) % 64, 128 + n % 64]
  else [240 + n / 262144, 128 + (n / 4096) % 64, 128 + (n / 64) % 64, 128 + n % 64]

/-- UTF-8 bytes of a string. -/
def strBytes (s : String) : List Nat :=
  s.data.foldr (fun c acc => utf8Bytes c ++ acc) []

/-- `Buffer.byteLength` of a string: the number of UTF-8 bytes. -/
def byteLength (s : String) : Nat :=
  (strBytes s).length

/-- The characters `querystring.escape` leaves unescaped:
ASCII alphanumerics and `- _ . ! ~ * ' ( )` (here written by code point:
45 95 46 33 126 42 39 40 41). -/
def qsUnreserved (c : Char) : Bool :=
  let n := c.toNat
  (65 ≤ n && n ≤ 90) || (97 ≤ n && n ≤ 122) || (48 ≤ n && n ≤ 57) ||
  n == 45 || n == 95 || n == 46 || n == 33 || n == 126 ||
  n == 42 || n == 39 || n == 40 || n == 41

/-- Percent encoding of one byte, uppercase hex as Node produces it. -/
def percentByte (b : Nat) : List Char :=
  ['%', hexDigit (b / 16), hexDigit (b % 16)]

/-- `querystring.escape` applied to one character. -/
def qsEscapeChar (c : Char) : List Char :=
  if qsUnreserved c then [c]
  else (utf8Bytes c).foldr (fun b acc => percentByte b ++ acc) []

/-- `querystring.escape`: percent-encode everything outside the
unreserved set. -/
def qsEscape (s : String) : String :=
  String.mk (s.data.foldr (fun c acc => qsEscapeChar c ++ acc) [])

/-- `querystring.stringify` on an object of string values: escaped
`key=value` pairs joined by `&`, in property order. -/
def qsStringify (obj : Payload) : String :=
  String.intercalate "&" (obj.map (fun kv => qsEscape kv.1 ++ "=" ++ qsEscape kv.2))

/-- Assign one own property on an embedded object: an existing key is
updated in place (its position kept), a new key is appended.  This is
the effect of one step of `Object.assign`. -/
def setKey : Payload → String → String → Payload
  | [], k, v => [(k, v)]
  | (k₀, v₀) :: rest, k, v =>
      if k₀ = k then (k₀, v) :: rest else (k₀, v₀) :: setKey rest k v

/-- `Object.assign(target, source)`: copy the source's properties onto
the target, in the source's property order. -/
def objAssign (target source : Payload) : Payload :=
  source.foldl (fun acc kv => setKey acc kv.1 kv.2) target

/-- Property lookup on an embedded object. -/
def lookupKey (k : String) : Payload → Option String
  | [] => none
  | (k₀, v₀) :: rest => if k₀ = k then some v₀ else lookupKey k rest

/-- Whether `pat` is a prefix of `l`. -/
def isPrefixL : List Char → List Char → Bool
  | [], _ => true
  | _ :: _, [] => false
  | p :: ps, c :: cs => p == c && isPrefixL ps cs

/-- `String.prototype.replace` with a string pattern replaces only the
first occurrence; this is its character-list core. -/
def replaceFirstL (pat rep : List Char) : List Char → List Char
  | [] => []
  | c :: cs =>
      if isPrefixL pat (c :: cs) then rep ++ (c :: cs).drop pat.length
      else c :: replaceFirstL pat rep cs

/-- JavaScript `s.replace(pat, rep)` for a string pattern: only the
first occurrence of `pat` is replaced. -/
def replaceFirst (pat rep s : String) : String :=
  String.mk (replaceFirstL pat.data rep.data s.data)

/-- Index of the first occurrence of `pat`, if any. -/
def findSubL (pat : List Char) : List Char → Option Nat
  | [] => none
  | c :: cs =>
      if isPrefixL pat (c :: cs) then some 0
      else (findSubL pat cs).map (fun n => n + 1)

/-- Index of the first occurrence of `pat` in `s`, if any. -/
def findSub (pat s : String) : Option Nat :=
  findSubL pat.data s.data

/-- The authorization mode of a request, per the spec's data model:
None, Basic(credentials), or Bearer(token).  The source's endpoint
methods pass `authorization: ⟨type: Basic⟩` (the configured client
credentials are attached) or `⟨type: Bearer, token⟩`. -/
inductive AuthorizationMode where
  | none
  | basic (credentials : String)
  | bearer (token : String)
deriving DecidableEq, Repr

/-- A logical request intent: method, path, authorization mode,
caller-supplied headers, optional serialized body. -/
structure RequestIntent where
  method : String
  path : String
  authorization : AuthorizationMode
  headers : List (String × String)
  body : Option String
deriving DecidableEq, Repr

/-- A transport-ready request descriptor. -/
structure TransportRequestOptions where
  method : String
  path : String
  headers : List (String × String)
deriving DecidableEq, Repr

/-- Modelled from the spec: `buildRequestOptions` lives in the
`lib/common` module, which is not among the sources.  Per spec §4.1 it
sets method and path from the intent and merges the caller-supplied
headers with a computed `Authorization` header — `Basic ` ++ credentials
for mode Basic, `Bearer ` ++ token for mode Bearer, omitted for mode
None — and sets no `Content-Type` or `Content-Length` itself. -/
def buildRequestOptions (intent : RequestIntent) : TransportRequestOptions :=
  { method := intent.method
    path := intent.path
    headers :=
      match intent.authorization with
      | .none => intent.headers
      | .basic credentials => ("Authorization", "Basic " ++ credentials) :: intent.headers
      | .bearer token => ("Authorization", "Bearer " ++ token) :: intent.headers }

/-! ### OAuth2 endpoint methods (from the OAuth2 source file) -/

/-- `OAuth2.requestToken`: `Object.assign(⟨grant_type: password⟩, data)`. -/
def requestTokenDataCopy (data : Payload) : Payload :=
  objAssign [("grant_type", "password")] data

/-- `OAuth2.requestToken`'s transmitted form body:
`querystring.stringify(dataCopy).replace(percent-40, at-sign)`. -/
def requestTokenBody (data : Payload) : String :=
  replaceFirst "%40" "@" (qsStringify (requestTokenDataCopy data))

/-- The request `OAuth2.requestToken` dispatches: POST /oauth2/token,
Basic authorization, form content headers, the encoded form body. -/
def requestTokenIntent (credentials : String) (data : Payload) : RequestIntent :=
  { method := "POST"
    path := "/oauth2/token"
    authorization := .basic credentials
    headers :=
      [("Content-Type", "application/x-www-form-urlencoded"),
       ("Content-Length", toString (byteLength (requestTokenBody data)))]
    body := some (requestTokenBody data) }

/-- `OAuth2.verify`: GET /oauth2/token with Bearer authorization and no
body. -/
def oauth2VerifyIntent (token : String) : RequestIntent :=
  { method := "GET"
    path := "/oauth2/token"
    authorization := .bearer token
    headers := []
    body := Option.none }

/-- `OAuth2.refreshToken`: `Object.assign(⟨⟩, data, ⟨grant_type:
refresh_token⟩)`. -/
def refreshTokenDataCopy (data : Payload) : Payload :=
  objAssign (objAssign [] data) [("grant_type", "refresh_token")]

/-- `OAuth2.refreshToken`'s transmitted form body. -/
def refreshTokenBody (data : Payload) : String :=
  replaceFirst "%40" "@" (qsStringify (refreshTokenDataCopy data))

/-- The request `OAuth2.refreshToken` dispatches. -/
def refreshTokenIntent (credentials : String) (data : Payload) : RequestIntent :=
  { method := "POST"
    path := "/oauth2/token"
    authorization := .basic credentials
    headers :=
      [("Content-Type", "application/x-www-form-urlencoded"),
       ("Content-Length", toString (byteLength (refreshTokenBody data)))]
    body := some (refreshTokenBody data) }

/-! ### JSON serialization (JSON.stringify on the shapes the User
methods build) -/

/-- `JSON.stringify`'s escaping of one character inside a string
literal: quote and backslash get a backslash escape, the control
characters 8 9 10 12 13 get their short escapes, other control
characters below 32 get a `\u00xx` escape, everything else is copied. -/
def jsonEscapeChar (c : Char) : List Char :=
  let n := c.toNat
  if n == 34 then ['\\', '"']
  else if n == 92 then ['\\', '\\']
  else if n == 8 then ['\\', 'b']
  else if n == 9 then ['\\', 't']
  else if n == 10 then ['\\', 'n']
  else if n == 12 then ['\\', 'f']
  else if n == 13 then ['\\', 'r']
  else if n < 32 then ['\\', 'u', '0', '0', hexDigitLower (n / 16), hexDigitLower (n % 16)]
  else [c]

/-- A JSON string literal for `s`. -/
def jsonString (s : String) : String :=
  "\"" ++ String.mk (s.data.foldr (fun c acc => jsonEscapeChar c ++ acc) []) ++ "\""

/-- One `key:value` member of a JSON object, the value already
serialized. -/
def jsonMember (k v : String) : String :=
  jsonString k ++ ":" ++ v

/-- An optional string property: `JSON.stringify` omits properties
whose value is `undefined`. -/
def jsonOptMember (k : String) : Option String → List String
  | Option.none => []
  | some s => [jsonMember k (jsonString s)]

/-! ### User endpoint methods (from the User source file) -/

/-- The destructured argument of `User.create`: required email and
password, optional name and phone fields, and the two option flags
(both default false). -/
structure UserCreateParams where
  email : String
  password : String
  first_name : Option String
  last_name : Option String
  number : Option String
  verifyEmail : Bool
  startTrial : Bool
deriving DecidableEq, Repr

/-- `User.create`'s request body: `JSON.stringify` of the object with
`skip_30day_trial` (0 when startTrial, else 1) followed by the five
user fields, undefined ones omitted. -/
def userCreateJSONData (p : UserCreateParams) : String :=
  "\x7b" ++
    String.intercalate ","
      ([jsonMember "skip_30day_trial" (if p.startTrial then "0" else "1"),
        jsonMember "email" (jsonString p.email),
        jsonMember "password" (jsonString p.password)]
        ++ jsonOptMember "first_name" p.first_name
        ++ jsonOptMember "last_name" p.last_name
        ++ jsonOptMember "number" p.number) ++ "\x7d"

/-- The request `User.create` dispatches: POST /user, Basic
authorization, JSON content headers. -/
def userCreateIntent (credentials : String) (p : UserCreateParams) : RequestIntent :=
  { method := "POST"
    path := "/user"
    authorization := .basic credentials
    headers :=
      [("Content-Type", "application/json"),
       ("Content-Length", toString (byteLength (userCreateJSONData p)))]
    body := some (userCreateJSONData p) }

/-- `User.retrieve`: GET /user with Bearer authorization and no body. -/
def userRetrieveIntent (token : String) : RequestIntent :=
  { method := "GET"
    path := "/user"
    authorization := .bearer token
    headers := []
    body := Option.none }

/-- `User.verifyEmail`'s request body: `JSON.stringify(⟨email⟩)`. -/
def verifyEmailJSONData (email : String) : String :=
  "\x7b" ++ jsonMember "email" (jsonString email) ++ "\x7d"

/-- The request `User.verifyEmail` dispatches: POST /user/verifyemail,
Basic authorization, JSON content headers. -/
def verifyEmailIntent (credentials : String) (email : String) : RequestIntent :=
  { method := "POST"
    path := "/user/verifyemail"
    authorization := .basic credentials
    headers :=
      [("Content-Type", "application/json"),
       ("Content-Length", toString (byteLength (verifyEmailJSONData email)))]
    body := some (verifyEmailJSONData email) }

/-- `User.deactivateReusableSignatures`'s request body:
`JSON.stringify(⟨active: 1⟩)`. -/
def deactivateReusableSignaturesJSONData : String :=
  "\x7b\"active\":1\x7d"

/-- The request `User.deactivateReusableSignatures` dispatches: PUT
/user/setting/no_user_signature_return, Bearer authorization, JSON
content headers. -/
def deactivateReusableSignaturesIntent (token : String) : RequestIntent :=
  { method := "PUT"
    path := "/user/setting/no_user_signature_return"
    authorization := .bearer token
    headers :=
      [("Content-Type", "application/json"),
       ("Content-Length", toString (byteLength deactivateReusableSignaturesJSONData))]
    body := some deactivateReusableSignaturesJSONData }

/-! ### Response normalization (modelled from the spec)

The `responseHandler`/`errorHandler` pair lives in the `lib/common`
module, which is not among the sources; the definitions below model it
from spec §4.2 and §7.  The generic type `J` stands for the host's
parsed-JSON values, and the parse function is a parameter because the
spec delegates parsing to the host's JSON parser. -/

/-- The message carried by a normalized error: the parsed error body
when parsing succeeded, the raw text (response body or transport error
message) otherwise; a 2xx response whose body fails to parse yields the
distinct parse-failure shape. -/
inductive ErrMessage (J : Type) where
  | parsed (value : J)
  | raw (text : String)
  | parseFailure (text : String)
deriving DecidableEq, Repr

/-- Modelled from the spec: the normalized error object, with
`statusCode` absent for transport-level failures. -/
structure ApiError (J : Type) where
  statusCode : Option Nat
  message : ErrMessage J
deriving DecidableEq, Repr

/-- A single invocation of the continuation: either a success value or
a normalized error. -/
inductive NormalizedCall (J : Type) where
  | success (body : J)
  | failure (e : ApiError J)
deriving DecidableEq, Repr

/-- A terminal transport event for one dispatched request: either the
response completed (status code and accumulated body text) or a
transport-level error occurred before any response. -/
inductive TransportEvent where
  | response (statusCode : Nat) (body : String)
  | transportError (message : String)
deriving DecidableEq, Repr

/-- The parsed body when parsing succeeds, the raw text otherwise. -/
def parsedOrRaw {J : Type} (parse : String → Option J) (body : String) : ErrMessage J :=
  match parse body with
  | some j => .parsed j
  | Option.none => .raw body

/-- Modelled from the spec: on completion the normalizer parses the
accumulated body; a 2xx status with a parsed body is a success, a 2xx
status with an unparseable body is a normalized parse error, and any
other status is an `ApiError` carrying the status code and the parsed
body when possible, the raw text otherwise. -/
def normalizeResponse {J : Type} (parse : String → Option J)
    (statusCode : Nat) (body : String) : NormalizedCall J :=
  if 200 ≤ statusCode ∧ statusCode < 300 then
    match parse body with
    | some j => .success j
    | Option.none => .failure ⟨some statusCode, .parseFailure body⟩
  else
    .failure ⟨some statusCode, parsedOrRaw parse body⟩

/-- Modelled from the spec: the response handler closes over the
continuation and feeds it the normalized outcome of a completed
response. -/
def responseHandler {J α : Type} (parse : String → Option J)
    (callback : NormalizedCall J → α) (statusCode : Nat) (body : String) : α :=
  callback (normalizeResponse parse statusCode body)

/-- Modelled from the spec: the transport-error handler closes over the
same continuation and feeds it an `ApiError` with no status code whose
message is the transport error message. -/
def errorHandler {J α : Type} (callback : NormalizedCall J → α) (message : String) : α :=
  callback (.failure ⟨Option.none, .raw message⟩)

/-- One dispatched request delivers exactly one terminal transport
event; the matching handler runs with a continuation that records its
invocations, so the returned list is the sequence of continuation
invocations for that request. -/
def runTransport {J : Type} (parse : String → Option J) :
    TransportEvent → List (NormalizedCall J)
  | .response statusCode body =>
      responseHandler parse (fun c => [c]) statusCode body
  | .transportError message =>
      errorHandler (fun c => [c]) message

/-! ### The User.create email-verification callback chain -/

/-- Delivery of one request's outcome to an error-first callback: an
error invokes it as `(some error, no result)`, a success as
`(no error, some result)` — exactly one invocation either way. -/
def runRequest {E R α : Type} (handler : Option E → Option R → α) : Except E R → α
  | .error e => handler (some e) Option.none
  | .ok r => handler Option.none (some r)

/-- `User.create`'s `callbackWithEmailVerification`, from the source: a
creation error is passed through and no verification request is issued;
otherwise the `User.verifyEmail` request is issued (flag `true`) and
its callback surfaces either the verification error or the original
creation response.  Returns the list of `originalCallback` invocations
paired with whether the verification request was issued. -/
def callbackWithEmailVerification {E R : Type} (verifyOutcome : Except E String)
    (createErr : Option E) (createRes : Option R) :
    List (Option E × Option R) × Bool :=
  match createErr with
  | some e => ([(some e, Option.none)], false)
  | Option.none =>
      runRequest
        (fun verifyErr _ =>
          match verifyErr with
          | some ve => ([(some ve, Option.none)], true)
          | Option.none => ([(Option.none, createRes)], true))
        verifyOutcome

/-- The `originalCallback` invocations of one `User.create` call, given
the outcome of the creation request and — when it is issued — the
outcome of the follow-up verification request.  When the `verifyEmail`
option is off, `originalCallback` itself is the request callback. -/
def userCreateCalls {E R : Type} (verifyEmailOpt : Bool)
    (createOutcome : Except E R) (verifyOutcome : Except E String) :
    List (Option E × Option R) × Bool :=
  if verifyEmailOpt then
    runRequest (callbackWithEmailVerification verifyOutcome) createOutcome
  else
    (runRequest (fun e r => [(e, r)]) createOutcome, false)

/-! ### The bin/remove-document command line (from the CLI source file) -/

/-- The base64 alphabet. -/
def base64Alphabet : List Char :=
  "ABCDEFGHIJKLMNOPQRSTUVWXYZabcdefghijklmnopqrstuvwxyz0123456789+/".data

/-- One base64 digit. -/
def base64Digit (n : Nat) : Char :=
  base64Alphabet.getD n 'A'

/-- Standard base64 of a byte sequence, with `=` padding, as
`Buffer.toString` with encoding base64 produces. -/
def base64Encode : List Nat → String
  | [] => ""
  | [b1] =>
      String.mk [base64Digit (b1 / 4), base64Digit (b1 % 4 * 16)] ++ "=="
  | [b1, b2] =>
      String.mk [base64Digit (b1 / 4), base64Digit (b1 % 4 * 16 + b2 / 16),
        base64Digit (b2 % 16 * 4)] ++ "="
  | b1 :: b2 :: b3 :: rest =>
      String.mk [base64Digit (b1 / 4), base64Digit (b1 % 4 * 16 + b2 / 16),
        base64Digit (b2 % 16 * 4 + b3 / 64), base64Digit (b3 % 64)] ++
      base64Encode rest

/-- `Array.prototype.includes` on a list of strings. -/
def hasArg : List String → String → Bool
  | [], _ => false
  | x :: xs, a => if x = a then true else hasArg xs a

/-- Whether `pre` is a prefix of `s` — the regular-expression test
`begins with pre` for a literal pattern. -/
def strStartsWith (pre s : String) : Bool :=
  isPrefixL pre.data s.data

/-- The CLI's flags: the arguments matching the regular expression
`begins with two hyphens`. -/
def cliFlags (args : List String) : List String :=
  args.filter (fun a => strStartsWith "--" a)

/-- The CLI's positional parameters: the arguments that are not
flags, in order. -/
def cliParams (args : List String) : List String :=
  args.filter (fun a => !(strStartsWith "--" a))

/-- The i-th positional parameter; a missing one destructures to
`undefined`, which string-interpolates as the text `undefined`. -/
def cliParam (args : List String) (i : Nat) : String :=
  (cliParams args).getD i "undefined"

/-- The credentials the CLI configures the client with:
`Buffer.from(clientId ++ colon ++ clientSecret).toString(base64)`. -/
def cliCredentials (args : List String) : String :=
  base64Encode (strBytes (cliParam args 0 ++ ":" ++ cliParam args 1))

/-- The CLI's `--dev` flag. -/
def cliDev (args : List String) : Bool :=
  hasArg (cliFlags args) "--dev"

/-- The `production` setting the CLI configures the client with:
the negation of the `--dev` flag. -/
def cliProduction (args : List String) : Bool :=
  !cliDev args

/-! ### Helper lemmas -/

lemma lookupKey_setKey_self (l : Payload) (k v : String) :
    lookupKey k (setKey l k v) = some v := by
  induction l with
  | nil => simp [setKey, lookupKey]
  | cons q rest ih =>
    obtain ⟨k₀, v₀⟩ := q
    by_cases h : k₀ = k
    · subst h; simp [setKey, lookupKey]
    · simp [setKey, lookupKey, h, ih]

lemma lookupKey_setKey_ne (l : Payload) (k k₁ v : String) (h : k ≠ k₁) :
    lookupKey k₁ (setKey l k v) = lookupKey k₁ l := by
  induction l with
  | nil => simp [setKey, lookupKey, h]
  | cons q rest ih =>
    obtain ⟨k₀, v₀⟩ := q
    by_cases h0 : k₀ = k
    · subst h0
      have hne : k₀ ≠ k₁ := h
      simp [setKey, lookupKey, hne]
    · simp [setKey, lookupKey, h0, ih]

lemma lookupKey_objAssign_of_not_key (s : Payload) (t : Payload) (k : String)
    (H : ∀ q ∈ s, q.1 ≠ k) :
    lookupKey k (objAssign t s) = lookupKey k t := by
  induction s generalizing t with
  | nil => rfl
  | cons q rest ih =>
    have h1 : q.1 ≠ k := H q (by simp)
    have H2 : ∀ r ∈ rest, r.1 ≠ k := fun r hr => H r (by simp [hr])
    calc lookupKey k (objAssign t (q :: rest))
        = lookupKey k (objAssign (setKey t q.1 q.2) rest) := rfl
      _ = lookupKey k (setKey t q.1 q.2) := ih (setKey t q.1 q.2) H2
      _ = lookupKey k t := lookupKey_setKey_ne t q.1 k q.2 h1

lemma lookupKey_objAssign_override (s : Payload) (t : Payload) (k g : String)
    (hs : lookupKey k s = some g) (nd : (s.map Prod.fst).Nodup) :
    lookupKey k (objAssign t s) = some g := by
  induction s generalizing t with
  | nil => simp [lookupKey] at hs
  | cons q rest ih =>
    obtain ⟨k₀, v₀⟩ := q
    have hstep : objAssign t ((k₀, v₀) :: rest) = objAssign (setKey t k₀ v₀) rest := rfl
    rw [hstep]
    simp only [List.map_cons, List.nodup_cons] at nd
    by_cases h : k₀ = k
    · subst h
      have hv : v₀ = g := by simpa [lookupKey] using hs
      have hnk : ∀ r ∈ rest, r.1 ≠ k₀ := by
        intro r hr he
        exact nd.1 (he ▸ List.mem_map_of_mem Prod.fst hr)
      rw [lookupKey_objAssign_of_not_key rest _ _ hnk, lookupKey_setKey_self, hv]
    · have hs₂ : lookupKey k rest = some g := by simpa [lookupKey, h] using hs
      exact ih (setKey t k₀ v₀) hs₂ nd.2

lemma lookupKey_eq_none_iff (k : String) (l : Payload) :
    lookupKey k l = Option.none ↔ ∀ q ∈ l, q.1 ≠ k := by
  induction l with
  | nil => simp [lookupKey]
  | cons q rest ih =>
    obtain ⟨k₀, v₀⟩ := q
    by_cases h : k₀ = k <;> simp [lookupKey, h, ih]

lemma replaceFirstL_eq_splice (pat rep : List Char) :
    ∀ (l : List Char) (i : Nat), findSubL pat l = some i →
      replaceFirstL pat rep l = l.take i ++ rep ++ l.drop (i + pat.length) := by
  intro l
  induction l with
  | nil => intro i h; simp [findSubL] at h
  | cons c cs ih =>
    intro i h
    by_cases hp : isPrefixL pat (c :: cs) = true
    · have hi : i = 0 := by
        have := h
        simp [findSubL, hp] at this
        omega
      subst hi
      simp [replaceFirstL, hp]
    · have h₂ : ∃ j, findSubL pat cs = some j ∧ j + 1 = i := by
        simpa [findSubL, hp, Option.map_eq_some'] using h
      obtain ⟨j, hj, hji⟩ := h₂
      subst hji
      have harith : j + 1 + pat.length = (j + pat.length) + 1 := by omega
      simp [replaceFirstL, hp, ih j hj, harith, List.take_succ_cons, List.drop_succ_cons]

lemma hasArg_filter_startsWith (args : List String) :
    hasArg (args.filter (fun a => strStartsWith "--" a)) "--dev" = hasArg args "--dev" := by
  induction args with
  | nil => rfl
  | cons x xs ih =>
    by_cases hx : strStartsWith "--" x = true
    · simp [List.filter_cons, hx, hasArg, ih]
    · have hne : x ≠ "--dev" := by
        intro he; subst he; exact hx (by decide)
      simp [List.filter_cons, hx, hasArg, hne, ih]

lemma length_filter_add (p : String → Bool) (l : List String) :
    (l.filter p).length + (l.filter (fun a => !(p a))).length = l.length := by
  induction l with
  | nil => rfl
  | cons x xs ih =>
    by_cases hx : p x = true
    · simp [List.filter_cons, hx]; omega
    · have hx₂ : p x = false := by simpa using hx
      simp [List.filter_cons, hx₂]; omega

/-! ### Claim theorems -/

/-- C1 counterexample: for the token request payload with username
`u@x.com` and password `p` and no grant type, the transmitted form body
is not the string `grant_type=password&username=u%40x.com&password=p`
claimed — the code's replace call turns the (only) `%40` back into
`@`. -/
theorem requestToken_c1_counterexample :
    requestTokenBody [("username", "u@x.com"), ("password", "p")] ≠
      "grant_type=password&username=u%40x.com&password=p" := by
  decide

/-- C1 (amended): for the token request payload with username `u@x.com`
and password `p` and no grant type supplied, `requestToken` sends to
POST /oauth2/token with Basic authorization the form body equal exactly
to `grant_type=password&username=u@x.com&password=p` — the encoder's
`%40` for the `@` is substituted back to `@` by the replace call. -/
theorem requestToken_sample_request (credentials : String) :
    (requestTokenIntent credentials [("username", "u@x.com"), ("password", "p")]).method = "POST" ∧
    (requestTokenIntent credentials [("username", "u@x.com"), ("password", "p")]).path = "/oauth2/token" ∧
    (requestTokenIntent credentials [("username", "u@x.com"), ("password", "p")]).authorization =
      AuthorizationMode.basic credentials ∧
    (requestTokenIntent credentials [("username", "u@x.com"), ("password", "p")]).body =
      some "grant_type=password&username=u@x.com&password=p" :=
  ⟨rfl, rfl, rfl, rfl⟩

/-- C4: for every request intent, the built request's Authorization
header equals exactly `Basic ` ++ credentials in Basic mode, exactly
`Bearer ` ++ token in Bearer mode, and in None mode the built headers
are the caller's headers unchanged — no Authorization header is
added. -/
theorem buildRequestOptions_authorization_header (m p c t : String)
    (hs : List (String × String)) (b : Option String) :
    lookupKey "Authorization" (buildRequestOptions ⟨m, p, .basic c, hs, b⟩).headers =
      some ("Basic " ++ c) ∧
    lookupKey "Authorization" (buildRequestOptions ⟨m, p, .bearer t, hs, b⟩).headers =
      some ("Bearer " ++ t) ∧
    (buildRequestOptions ⟨m, p, .none, hs, b⟩).headers = hs := by
  refine ⟨?_, ?_, rfl⟩ <;> simp [buildRequestOptions, lookupKey]

/-- C5: the authorization mode is fixed per endpoint — `requestToken`,
`refreshToken`, `User.create` and `User.verifyEmail` attach Basic
authorization with the configured credentials, while `OAuth2.verify`,
`User.retrieve` and `User.deactivateReusableSignatures` attach Bearer
authorization with the caller-supplied token. -/
theorem endpoint_authorization_modes (credentials token email : String)
    (data : Payload) (p : UserCreateParams) :
    (requestTokenIntent credentials data).authorization = .basic credentials ∧
    (refreshTokenIntent credentials data).authorization = .basic credentials ∧
    (userCreateIntent credentials p).authorization = .basic credentials ∧
    (verifyEmailIntent credentials email).authorization = .basic credentials ∧
    (oauth2VerifyIntent token).authorization = .bearer token ∧
    (userRetrieveIntent token).authorization = .bearer token ∧
    (deactivateReusableSignaturesIntent token).authorization = .bearer token :=
  ⟨rfl, rfl, rfl, rfl, rfl, rfl, rfl⟩

/-- C2: for every dispatched request — which delivers exactly one
terminal transport event to the attached handler pair — the
caller-supplied continuation is invoked exactly once, and a
transport-level error invokes it once through the error handler, with
the transport error's shape, never through the response path. -/
theorem continuation_fires_exactly_once {J : Type} (parse : String → Option J)
    (ev : TransportEvent) (message : String) :
    (runTransport parse ev).length = 1 ∧
    runTransport parse (.transportError message) =
      [.failure ⟨Option.none, .raw message⟩] := by
  constructor
  · cases ev <;> simp [runTransport, responseHandler, errorHandler]
  · rfl

/-- C3: the response normalizer's case analysis — a 2xx status whose
body parses invokes the continuation with the parsed body as a success;
a status outside the 2xx range invokes it with an `ApiError` carrying
the status code and the parsed body when possible, the raw text
otherwise; a transport-level error invokes it with an `ApiError` whose
status code is absent and whose message is the transport error
message. -/
theorem responseNormalizer_cases {J : Type} (parse : String → Option J)
    (statusCode : Nat) (body errText : String) :
    (∀ j, 200 ≤ statusCode → statusCode < 300 → parse body = some j →
      runTransport parse (.response statusCode body) = [.success j]) ∧
    (statusCode < 200 ∨ 300 ≤ statusCode →
      runTransport parse (.response statusCode body) =
        [.failure ⟨some statusCode, parsedOrRaw parse body⟩]) ∧
    runTransport parse (.transportError errText) =
      [.failure ⟨Option.none, .raw errText⟩] := by
  refine ⟨?_, ?_, rfl⟩
  · intro j h1 h2 hp
    simp [runTransport, responseHandler, normalizeResponse, h1, h2, hp]
  · intro h
    have hn : ¬(200 ≤ statusCode ∧ statusCode < 300) := by omega
    simp [runTransport, responseHandler, normalizeResponse, hn]

/-- The parse function of the C3 witness: a toy JSON parser accepting
only the text `ok`. -/
def witnessParse : String → Option Nat :=
  fun s => if s = "ok" then some 7 else Option.none

/-- C3 witness: the three normalizer cases at concrete inputs — a 201
response with a parseable body, a 404 response with an unparseable
body, and a DNS-failure transport error. -/
theorem responseNormalizer_cases_witness :
    runTransport witnessParse (.response 201 "ok") = [.success 7] ∧
    runTransport witnessParse (.response 404 "bad") =
      [.failure ⟨some 404, .raw "bad"⟩] ∧
    runTransport witnessParse (.transportError "getaddrinfo ENOTFOUND") =
      [.failure ⟨Option.none, .raw "getaddrinfo ENOTFOUND"⟩] := by
  refine ⟨?_, ?_, ?_⟩
  · exact (responseNormalizer_cases witnessParse 201 "ok" "x").1 7
      (by decide) (by decide) (by decide)
  · have h := (responseNormalizer_cases witnessParse 404 "bad" "x").2.1
      (Or.inr (by decide))
    exact h.trans (by decide)
  · exact (responseNormalizer_cases witnessParse 0 "" "getaddrinfo ENOTFOUND").2.2

/-- C6: every body-bearing operation itself sets the content headers —
the OAuth2 token requests carry Content-Type
application/x-www-form-urlencoded, the body-bearing user requests carry
Content-Type application/json, each carries a Content-Length equal to
the byte length of the serialized body it writes — and the shared
helper adds no content header of its own: the built request's content
headers are exactly the intent's. -/
theorem content_headers_set_by_callers (credentials email token : String)
    (data : Payload) (p : UserCreateParams) (i : RequestIntent) :
    lookupKey "Content-Type" (requestTokenIntent credentials data).headers =
      some "application/x-www-form-urlencoded" ∧
    lookupKey "Content-Length" (requestTokenIntent credentials data).headers =
      some (toString (byteLength ((requestTokenIntent credentials data).body.getD ""))) ∧
    lookupKey "Content-Type" (refreshTokenIntent credentials data).headers =
      some "application/x-www-form-urlencoded" ∧
    lookupKey "Content-Length" (refreshTokenIntent credentials data).headers =
      some (toString (byteLength ((refreshTokenIntent credentials data).body.getD ""))) ∧
    lookupKey "Content-Type" (userCreateIntent credentials p).headers =
      some "application/json" ∧
    lookupKey "Content-Length" (userCreateIntent credentials p).headers =
      some (toString (byteLength ((userCreateIntent credentials p).body.getD ""))) ∧
    lookupKey "Content-Type" (verifyEmailIntent credentials email).headers =
      some "application/json" ∧
    lookupKey "Content-Length" (verifyEmailIntent credentials email).headers =
      some (toString (byteLength ((verifyEmailIntent credentials email).body.getD ""))) ∧
    lookupKey "Content-Type" (deactivateReusableSignaturesIntent token).headers =
      some "application/json" ∧
    lookupKey "Content-Length" (deactivateReusableSignaturesIntent token).headers =
      some (toString (byteLength ((deactivateReusableSignaturesIntent token).body.getD ""))) ∧
    lookupKey "Content-Type" (buildRequestOptions i).headers =
      lookupKey "Content-Type" i.headers ∧
    lookupKey "Content-Length" (buildRequestOptions i).headers =
      lookupKey "Content-Length" i.headers := by
  refine ⟨rfl, rfl, rfl, rfl, rfl, rfl, rfl, rfl, rfl, rfl, ?_, ?_⟩ <;>
    · obtain ⟨m, pa, auth, hs, b⟩ := i
      cases auth <;> simp [buildRequestOptions, lookupKey]

/-- C7: the CLI treats exactly the arguments beginning with two hyphens
as flags and the remaining arguments, in order, as the positional
parameters; it configures the client with credentials equal to the
base64 encoding of `client_id:client_secret` and with production true
if and only if `--dev` is absent from the arguments. -/
theorem cli_argument_parsing (args : List String) :
    cliFlags args = args.filter (fun a => strStartsWith "--" a) ∧
    cliParams args = args.filter (fun a => !(strStartsWith "--" a)) ∧
    (cliFlags args).length + (cliParams args).length = args.length ∧
    cliCredentials args =
      base64Encode (strBytes (cliParam args 0 ++ ":" ++ cliParam args 1)) ∧
    cliProduction args = !(hasArg args "--dev") := by
  refine ⟨rfl, rfl, length_filter_add _ args, rfl, ?_⟩
  simp [cliProduction, cliDev, cliFlags, hasArg_filter_startsWith]

/-- C8: grant-type precedence differs between the two token operations
— `requestToken` defaults grant_type to `password` but a caller-supplied
grant_type overrides the default, whereas `refreshToken` always sends
grant_type `refresh_token`, overwriting any caller-supplied one. -/
theorem grant_type_precedence (data : Payload)
    (h : (data.map Prod.fst).Nodup) :
    lookupKey "grant_type" (requestTokenDataCopy data) =
      some ((lookupKey "grant_type" data).getD "password") ∧
    lookupKey "grant_type" (refreshTokenDataCopy data) = some "refresh_token" := by
  constructor
  · cases hg : lookupKey "grant_type" data with
    | some g =>
      rw [show requestTokenDataCopy data =
            objAssign [("grant_type", "password")] data from rfl]
      rw [lookupKey_objAssign_override data _ _ g hg h]
      rfl
    | none =>
      have H := (lookupKey_eq_none_iff "grant_type" data).mp hg
      rw [show requestTokenDataCopy data =
            objAssign [("grant_type", "password")] data from rfl]
      rw [lookupKey_objAssign_of_not_key data _ _ H]
      rfl
  · rw [show refreshTokenDataCopy data =
          setKey (objAssign [] data) "grant_type" "refresh_token" from rfl]
    exact lookupKey_setKey_self _ _ _

/-- C8 witness: a payload that supplies its own grant_type
`authorization_code` — `requestToken` keeps it, `refreshToken`
overwrites it with `refresh_token`. -/
theorem grant_type_precedence_witness :
    lookupKey "grant_type"
        (requestTokenDataCopy [("grant_type", "authorization_code"), ("code", "c")]) =
      some "authorization_code" ∧
    lookupKey "grant_type"
        (refreshTokenDataCopy [("grant_type", "authorization_code"), ("code", "c")]) =
      some "refresh_token" := by
  have h := grant_type_precedence [("grant_type", "authorization_code"), ("code", "c")]
    (by decide)
  exact ⟨h.1.trans (by decide), h.2⟩

/-- The string with the three characters at index `i` replaced by a
single at-sign: everything before index `i` and everything from index
`i + 3` on is preserved verbatim. -/
def replacedAt (s : String) (i : Nat) : String :=
  String.mk (s.data.take i ++ '@' :: s.data.drop (i + 3))

/-- C9: in `requestToken` and `refreshToken` only the first occurrence
of `%40` in the form-encoded body is replaced by `@` — writing `i` for
the index of the first occurrence, the transmitted body is the encoding
with exactly the three characters at `i` replaced by `@`, so every
later occurrence remains percent-encoded verbatim. -/
theorem replace_first_occurrence_only (data : Payload) (i k : Nat)
    (h1 : findSub "%40" (qsStringify (requestTokenDataCopy data)) = some i)
    (h2 : findSub "%40" (qsStringify (refreshTokenDataCopy data)) = some k) :
    requestTokenBody data = replacedAt (qsStringify (requestTokenDataCopy data)) i ∧
    refreshTokenBody data = replacedAt (qsStringify (refreshTokenDataCopy data)) k := by
  have hat : "@".data = ['@'] := rfl
  have hlen : "%40".data.length = 3 := rfl
  constructor
  · show String.mk (replaceFirstL "%40".data "@".data
      (qsStringify (requestTokenDataCopy data)).data) = _
    rw [replaceFirstL_eq_splice "%40".data "@".data _ i h1, hat, hlen]
    simp [replacedAt, List.append_assoc]
  · show String.mk (replaceFirstL "%40".data "@".data
      (qsStringify (refreshTokenDataCopy data)).data) = _
    rw [replaceFirstL_eq_splice "%40".data "@".data _ k h2, hat, hlen]
    simp [replacedAt, List.append_assoc]

/-- C9 witness: a payload with an `@` in two fields — the encodings
contain `%40` twice, the transmitted bodies replace only the first
(index 30 for `requestToken`, index 10 for `refreshToken`), and the
refresh body still contains the literal `%40` in its password field. -/
theorem replace_first_occurrence_only_witness :
    findSub "%40"
        (qsStringify (requestTokenDataCopy [("username", "a@b.c"), ("password", "p@q")])) =
      some 30 ∧
    requestTokenBody [("username", "a@b.c"), ("password", "p@q")] =
      replacedAt
        (qsStringify (requestTokenDataCopy [("username", "a@b.c"), ("password", "p@q")])) 30 ∧
    refreshTokenBody [("username", "a@b.c"), ("password", "p@q")] =
      replacedAt
        (qsStringify (refreshTokenDataCopy [("username", "a@b.c"), ("password", "p@q")])) 10 ∧
    refreshTokenBody [("username", "a@b.c"), ("password", "p@q")] =
      "username=a@b.c&password=p%40q&grant_type=refresh_token" := by
  have h := replace_first_occurrence_only [("username", "a@b.c"), ("password", "p@q")]
    30 10 (by decide) (by decide)
  exact ⟨by decide, h.1, h.2, by decide⟩

/-- C10: with the verifyEmail option on, `User.create` invokes the
original callback exactly once — with the creation error (and no
verification request issued) when creation fails, with the verification
error and without the creation response when creation succeeds but
verification fails, and with the creation response only when both
succeed; the verification response is never surfaced. -/
theorem userCreate_verifyEmail_callback_flow {E R : Type}
    (createOutcome : Except E R) (verifyOutcome : Except E String) :
    (userCreateCalls true createOutcome verifyOutcome).1.length = 1 ∧
    userCreateCalls true createOutcome verifyOutcome =
      (match createOutcome with
       | .error e => ([(some e, Option.none)], false)
       | .ok r =>
          match verifyOutcome with
          | .error ve => ([(some ve, Option.none)], true)
          | .ok _ => ([(Option.none, some r)], true)) := by
  cases createOutcome <;> cases verifyOutcome <;>
    simp [userCreateCalls, runRequest, callbackWithEmailVerification]

end SignNowSDK
